import Mathlib

/-!
Verification development for the zodix request-parsing library.

The definitions below are a shallow embedding of the TypeScript sources:

* `src/errors.ts` — `createErrorResponse` (the error constructor);
* `src/types/guards.ts` — `isZodV4Schema`, `isZodV3Schema`, `isZodSchema`
  (marker-based generation classification);
* `src/parsers.ts` — the compat orchestrators `parseParams`,
  `parseParamsSafe`, `parseQuery`, `parseQuerySafe`, `parseForm`,
  `parseFormSafe`, and the default normalizers `parseSearchParamsDefault`
  and `parseFormDataDefault`;
* `src/compat/object.ts` and `src/compat/parser.ts` — `createObjectSchema`,
  `parseCompat`, `safeParseCompat`, `parseAsyncCompat`;
* `src/parsers.v4.ts` (namespace `V4`) — the Zod-v4-specific orchestrators
  with their own `defaultSearchParamsParser` and `parseFormData`.

JavaScript exceptions are modelled with `Except JsExn`; the external Zod
engines (both generations) are modelled as abstract run functions
`Data → VOutcome`, faithful to the call contracts the library relies on
(`.parse` throws the issue-bearing error, `.safeParse` returns a result
object for validation failures but lets engine-level faults escape).
Asynchronous calls suspend exactly once and are modelled by their
resolved outcome.
-/

/-! ## Error constructor (src/errors.ts) -/

/-- JavaScript `a || b` for an optional string: `undefined` and the empty
string are falsy, every other string is truthy. -/
def jsOrString : Option String → String → String
  | some s, dflt => if s = "" then dflt else s
  | none, dflt => dflt

/-- JavaScript `a || b` for an optional number: `undefined` and `0` are
falsy, every other number is truthy. -/
def jsOrNat : Option Nat → Nat → Nat
  | some n, dflt => if n = 0 then dflt else n
  | none, dflt => dflt

/-- The `Response` value thrown by the throwing parse operations: it
carries only a status code and a status text (the body is the status
text as well), never any validation-issue detail. -/
structure StdError where
  status : Nat
  statusText : String
deriving Repr, DecidableEq

def DEFAULT_ERROR_MESSAGE : String := "Bad Request"

def DEFAULT_ERROR_STATUS : Nat := 400

/-- Options accepted by the parse operations: an error message override,
a status override, and a custom normalization function. `Parser` is the
type of the custom normalizer (query-style or form-style). -/
structure Options (Parser : Type) where
  message : Option String
  status : Option Nat
  parser : Option Parser

/-- Embedding of `createErrorResponse` from src/errors.ts:
`statusText = options?.message || 'Bad Request'`,
`status = options?.status || 400`. -/
def createErrorResponse {Parser : Type} (options : Options Parser) : StdError :=
  { status := jsOrNat options.status DEFAULT_ERROR_STATUS
    statusText := jsOrString options.message DEFAULT_ERROR_MESSAGE }

/-! ## Generation classification (src/types/guards.ts)

A schema-like JavaScript value is abstracted by whether it is `null` /
`undefined`, whether `typeof` yields `'object'`, and which property names
the `in` operator finds on it. -/

/-- A JavaScript value as seen by the structural guards. `obj props` is a
non-null object whose property names (own or inherited, as probed by the
`in` operator) are `props`. `nonObject` covers every value with
`typeof value ≠ 'object'`. -/
inductive JsValue where
  | vundefined
  | vnull
  | nonObject
  | obj (props : List String)
deriving Repr, DecidableEq

/-- Embedding of `value != null && typeof value === 'object'` (loose inequality, so
both `null` and `undefined` fail it). -/
def nonNullObject : JsValue → Bool
  | .vundefined => false
  | .vnull => false
  | .nonObject => false
  | .obj _ => true

/-- The JavaScript `in` operator on the value. -/
def hasProp : JsValue → String → Bool
  | .obj props, p => props.contains p
  | _, _ => false

/-- Embedding of `isZodV4Schema` from src/types/guards.ts:
`schema != null && typeof schema === 'object' && '_zod' in schema`. -/
def isZodV4Schema (schema : JsValue) : Bool :=
  nonNullObject schema && hasProp schema "_zod"

/-- Embedding of `isZodV3Schema` from src/types/guards.ts:
non-null object with `'_def' in schema` and not `'_zod' in schema`. -/
def isZodV3Schema (schema : JsValue) : Bool :=
  nonNullObject schema && hasProp schema "_def" && !(hasProp schema "_zod")

/-- Embedding of `isZodSchema` from src/types/guards.ts. -/
def isZodSchema (schema : JsValue) : Bool :=
  isZodV3Schema schema || isZodV4Schema schema

/-- The generation tag of the spec's data model. -/
inductive Generation where
  | legacy
  | modern
  | neither
deriving Repr, DecidableEq, BEq

/-- The generation classification realized by the guards, in the order the
dispatcher consults them (the Modern marker is checked first). -/
def classifyGeneration (schema : JsValue) : Generation :=
  if isZodV4Schema schema then .modern
  else if isZodV3Schema schema then .legacy
  else .neither

/-- Modelled from the spec: the classification as worded in section 4.1 —
Modern exactly on a non-null object carrying the Modern marker, Legacy
exactly on a non-null object lacking it but carrying the Legacy marker,
Neither otherwise. Stated separately so that agreement with the code's
guards is a theorem, not a definition. -/
def specClassifyGeneration (schema : JsValue) : Generation :=
  if nonNullObject schema && hasProp schema "_zod" then .modern
  else if nonNullObject schema && hasProp schema "_def" then .legacy
  else .neither

/-! ## Input normalizers

Query sources are ordered lists of key/value string pairs; form sources
are ordered lists of key/entry pairs where an entry is a plain string or
a File with a declared filename. A normalized record is an ordered
association list; assigning to an existing key keeps its position. -/

/-- A submitted-form entry: a string field or a binary File carrying a
declared filename. -/
inductive FEntry where
  | str (s : String)
  | file (name : String)
deriving Repr, DecidableEq

/-- JavaScript `value.toString()` on a form entry: a File stringifies to
"[object File]", not to its filename. -/
def fentryToString : FEntry → String
  | .str s => s
  | .file _ => "[object File]"

/-- A value of the compat normalized query record
(`Record<string, string | string[]>`). -/
inductive QVal where
  | s (v : String)
  | arr (vs : List String)
deriving Repr, DecidableEq

/-- A value of the compat normalized form record produced by
`parseFormDataDefault` (files never survive it, only strings do). -/
inductive FVal where
  | s (v : String)
  | arr (vs : List String)
deriving Repr, DecidableEq

/-- A value of the v3/v4 normalized form record produced by their
`parseFormData`: the single entry of a key, or the list of all its
entries — File values included as-is. -/
inductive F4Val where
  | one (v : FEntry)
  | many (vs : List FEntry)
deriving Repr, DecidableEq

/-- Embedding of `record[key] = value` on an ordered record: overwrite in place if the
key exists, append otherwise. -/
def setEntry {α : Type} : List (String × α) → String → α → List (String × α)
  | [], k, v => [(k, v)]
  | (k', v') :: rest, k, v =>
    if k' = k then (k', v) :: rest else (k', v') :: setEntry rest k v

/-- Embedding of `record[key]` on an ordered record. -/
def getEntry {α : Type} : List (String × α) → String → Option α
  | [], _ => none
  | (k', v') :: rest, k => if k' = k then some v' else getEntry rest k

/-- One iteration of `parseSearchParamsDefault` (src/parsers.ts): note the
JavaScript truthiness tests — `currentVal && Array.isArray(currentVal)`
then `else if (currentVal)` — so an empty-string current value falls
through to plain assignment. -/
def searchStep (values : List (String × QVal)) (kv : String × String) :
    List (String × QVal) :=
  match getEntry values kv.1 with
  | some (QVal.arr vs) => setEntry values kv.1 (QVal.arr (vs ++ [kv.2]))
  | some (QVal.s s) =>
    if s = "" then setEntry values kv.1 (QVal.s kv.2)
    else setEntry values kv.1 (QVal.arr [s, kv.2])
  | none => setEntry values kv.1 (QVal.s kv.2)

/-- The default URLSearchParams normalizer of src/parsers.ts. -/
def parseSearchParamsDefault (pairs : List (String × String)) :
    List (String × QVal) :=
  pairs.foldl searchStep []

/-- One iteration of `parseFormDataDefault` (src/parsers.ts), preserving
the source's branch order: array check first (a File joining an existing
array is pushed via `toString()`), then the File check (its filename is
assigned, replacing any current scalar), then the truthy-scalar
promotion, then plain assignment. -/
def formStep (values : List (String × FVal)) (kv : String × FEntry) :
    List (String × FVal) :=
  match getEntry values kv.1 with
  | some (FVal.arr vs) => setEntry values kv.1 (FVal.arr (vs ++ [fentryToString kv.2]))
  | cur =>
    match kv.2 with
    | FEntry.file n => setEntry values kv.1 (FVal.s n)
    | FEntry.str sv =>
      match cur with
      | some (FVal.s s) =>
        if s = "" then setEntry values kv.1 (FVal.s sv)
        else setEntry values kv.1 (FVal.arr [s, sv])
      | _ => setEntry values kv.1 (FVal.s sv)

/-- The default FormData normalizer of src/parsers.ts. -/
def parseFormDataDefault (entries : List (String × FEntry)) :
    List (String × FVal) :=
  entries.foldl formStep []

namespace V4

/-- One iteration of `defaultSearchParamsParser` (src/parsers.v4.ts, also
src/parsers.v3.ts): key presence — `!(key in params)` — decides,
not truthiness. -/
def searchStepV4 (params : List (String × QVal)) (kv : String × String) :
    List (String × QVal) :=
  match getEntry params kv.1 with
  | none => setEntry params kv.1 (QVal.s kv.2)
  | some (QVal.arr vs) => setEntry params kv.1 (QVal.arr (vs ++ [kv.2]))
  | some (QVal.s s) => setEntry params kv.1 (QVal.arr [s, kv.2])

/-- The default URLSearchParams normalizer of src/parsers.v4.ts. -/
def defaultSearchParamsParser (pairs : List (String × String)) :
    List (String × QVal) :=
  pairs.foldl searchStepV4 []

/-- Embedding of `formData.getAll(key)`: every entry of the key, in order. -/
def getAll (entries : List (String × FEntry)) (k : String) : List FEntry :=
  entries.filterMap (fun kv => if kv.1 = k then some kv.2 else none)

/-- Embedding of `parseFormData` of src/parsers.v4.ts (also src/parsers.v3.ts): for
each key of the form, `getAll` its values and store the list when there
is more than one, the bare value otherwise. File entries are passed
through unchanged. Iterating `formData.keys()` visits a key once per
entry; reassigning the same value is idempotent, so the fold below is the
net effect. (The `headD` default is unreachable: a key yielded by the
iteration always has at least one value.) -/
def parseFormData (entries : List (String × FEntry)) :
    List (String × F4Val) :=
  entries.foldl
    (fun params kv =>
      let values := getAll entries kv.1
      setEntry params kv.1
        (if values.length > 1 then F4Val.many values
         else F4Val.one (values.headD (FEntry.str ""))))
    []

end V4

/-! ## The validation engines and the compatibility dispatcher

Both Zod generations are external collaborators; a validator instance is
abstracted by its run function on normalized data. Running it either
succeeds, fails with an issue-bearing validation error (which `.parse`
throws and `.safeParse` returns), or faults with an engine-level
exception (which escapes `.safeParse` as well — neither generation's
safe entry point catches non-validation exceptions). -/

/-- Normalized data handed to a validator, and the values it produces. -/
inductive Data where
  | undef
  | str (s : String)
  | num (n : Int)
  | bool (b : Bool)
  | file (name : String)
  | list (vs : List Data)
  | record (fields : List (String × Data))

/-- One structured validation failure record. -/
structure Issue where
  path : List String
  message : String

/-- The issue-bearing error produced by a failed validation. -/
structure ZodErr where
  issues : List Issue

/-- Outcome of a validator's underlying run on one input. -/
inductive VOutcome where
  | ok (v : Data)
  | invalid (e : ZodErr)
  | fault (msg : String)

/-- A thrown JavaScript value: a validation error, an ordinary engine or
runtime exception, or the `Response` thrown by the orchestrators. -/
inductive JsExn where
  | zodError (e : ZodErr)
  | jsError (msg : String)
  | response (r : StdError)

/-- The uniform safe-parse result shape: success with data, or failure
carrying the caught error value. -/
inductive SafeResult where
  | success (data : Data)
  | failure (error : JsExn)

/-- A schema argument as passed by a caller: a Legacy validator instance
(carrying the `_def` marker), a Modern validator instance (carrying the
`_zod` marker), a plain object read as a shape description, `null`,
`undefined`, or a non-object value. Validator instances are abstracted by
their run functions. -/
inductive Jv where
  | v3Schema (run : Data → VOutcome)
  | v4Schema (run : Data → VOutcome)
  | shape (fields : List (String × Jv))
  | vnull
  | vundefined
  | nonObject

/-- Embedding of `value != null && typeof value === 'object'` on a schema argument. -/
def nonNullObjectJv : Jv → Bool
  | .vnull => false
  | .vundefined => false
  | .nonObject => false
  | _ => true

/-- The `in` probe on a schema argument: a Legacy instance exposes
`_def`, a Modern instance exposes `_zod`, and a plain object exposes
exactly its own keys. -/
def hasPropJv : Jv → String → Bool
  | .v3Schema _, p => p = "_def"
  | .v4Schema _, p => p = "_zod"
  | .shape fields, p => fields.any (fun kv => kv.1 = p)
  | _, _ => false

/-- Embedding of `isZodV4Schema` applied to a schema argument. -/
def isZodV4SchemaJv (schema : Jv) : Bool :=
  nonNullObjectJv schema && hasPropJv schema "_zod"

/-- Embedding of `isZodV3Schema` applied to a schema argument. -/
def isZodV3SchemaJv (schema : Jv) : Bool :=
  nonNullObjectJv schema && hasPropJv schema "_def" && !(hasPropJv schema "_zod")

/-- Embedding of `isZodSchema` applied to a schema argument. -/
def isZodSchemaJv (schema : Jv) : Bool :=
  isZodV3SchemaJv schema || isZodV4SchemaJv schema

/-- The generation classification of a schema argument, in dispatcher
order. -/
def classifyGenerationJv (schema : Jv) : Generation :=
  if isZodV4SchemaJv schema then .modern
  else if isZodV3SchemaJv schema then .legacy
  else .neither

/-- Embedding of `record[key]` lookup on validated input, `undefined` when absent. -/
def lookupField : List (String × Data) → String → Data
  | [], _ => .undef
  | (k', v) :: rest, k => if k' = k then v else lookupField rest k

/-- Prefix a field name onto the paths of nested issues. -/
def prefixIssues (k : String) (issues : List Issue) : List Issue :=
  issues.map (fun i => ⟨k :: i.path, i.message⟩)

/-- Field loop of the Legacy engine's object validator: run each shape
entry's validator on the matching input field (missing fields validate as
`undefined`), collecting parsed values and issues in shape order. A shape
entry that is not a Legacy validator instance has no callable `_parse`,
so the engine faults there; unknown input keys are stripped. -/
def z3objectLoop :
    List (String × Jv) → List (String × Data) → List (String × Data) →
    List Issue → VOutcome
  | [], _, okAcc, issueAcc =>
    match issueAcc with
    | [] => .ok (.record okAcc)
    | issues => .invalid ⟨issues⟩
  | (k, fv) :: rest, input, okAcc, issueAcc =>
    match fv with
    | .v3Schema run =>
      match run (lookupField input k) with
      | .ok v => z3objectLoop rest input (okAcc ++ [(k, v)]) issueAcc
      | .invalid e => z3objectLoop rest input okAcc (issueAcc ++ prefixIssues k e.issues)
      | .fault m => .fault m
    | _ => .fault "keyValidator._parse is not a function"

/-- Modelled from the spec (section 4.2) and the Legacy engine's call
contract: the run function of `z3.object(shape)`. Construction itself is
lazy and never throws; all behavior surfaces when the validator runs.
Non-record input is a validation failure; a non-object shape enumerates
no keys (empty object result) except `null`/`undefined`, where key
enumeration itself faults. Validator-instance shapes do not reach this
constructor through the orchestrators and are modelled as a fault. -/
def z3objectRun (shape : Jv) (d : Data) : VOutcome :=
  match shape with
  | .shape fields =>
    match d with
    | .record input => z3objectLoop fields input [] []
    | _ => .invalid ⟨[⟨[], "Expected object, received something else"⟩]⟩
  | .nonObject =>
    match d with
    | .record _ => .ok (.record [])
    | _ => .invalid ⟨[⟨[], "Expected object, received something else"⟩]⟩
  | _ => .fault "cannot enumerate object keys of the shape"

/-- Embedding of `createObjectSchema` from src/compat/object.ts: wrap a shape with the
Legacy engine's `z3.object`; the result is a Legacy validator instance. -/
def createObjectSchema (shape : Jv) : Jv :=
  .v3Schema (z3objectRun shape)

/-- Field loop of the Modern engine's object validator: like the Legacy
one, but shape entries must be Modern validator instances. -/
def z4objectLoop :
    List (String × Jv) → List (String × Data) → List (String × Data) →
    List Issue → VOutcome
  | [], _, okAcc, issueAcc =>
    match issueAcc with
    | [] => .ok (.record okAcc)
    | issues => .invalid ⟨issues⟩
  | (k, fv) :: rest, input, okAcc, issueAcc =>
    match fv with
    | .v4Schema run =>
      match run (lookupField input k) with
      | .ok v => z4objectLoop rest input (okAcc ++ [(k, v)]) issueAcc
      | .invalid e => z4objectLoop rest input okAcc (issueAcc ++ prefixIssues k e.issues)
      | .fault m => .fault m
    | _ => .fault "field schema lacks the Modern internals"

/-- Modelled from the spec and the Modern engine's call contract: the run
function of the Modern classic `z.object(shape)`, used by the v4-specific
parsers (`createV4ObjectSchema`) for shape wrapping. -/
def z4objectRun (shape : Jv) (d : Data) : VOutcome :=
  match shape with
  | .shape fields =>
    match d with
    | .record input => z4objectLoop fields input [] []
    | _ => .invalid ⟨[⟨[], "Expected object, received something else"⟩]⟩
  | .nonObject =>
    match d with
    | .record _ => .ok (.record [])
    | _ => .invalid ⟨[⟨[], "Expected object, received something else"⟩]⟩
  | _ => .fault "cannot enumerate object keys of the shape"

/-- Embedding of `createV4ObjectSchema`: wrap a shape with the Modern classic
`z.object`; the result is a Modern validator instance carrying `_zod`. -/
def createV4ObjectSchema (shape : Jv) : Jv :=
  .v4Schema (z4objectRun shape)

/-- Embedding of `z4.parse(schema, data)`: runs a Modern validator, throwing the
issue-bearing error on validation failure; applied to a value without the
Modern internals, the engine faults. -/
def z4parse : Jv → Data → Except JsExn Data
  | .v4Schema run, d =>
    match run d with
    | .ok v => .ok v
    | .invalid e => .error (.zodError e)
    | .fault m => .error (.jsError m)
  | _, _ => .error (.jsError "value lacks the Modern internals")

/-- Embedding of `z4.safeParse(schema, data)`: validation failures become a failure
result; engine faults still escape. -/
def z4safeParse : Jv → Data → Except JsExn SafeResult
  | .v4Schema run, d =>
    match run d with
    | .ok v => .ok (.success v)
    | .invalid e => .ok (.failure (.zodError e))
    | .fault m => .error (.jsError m)
  | _, _ => .error (.jsError "value lacks the Modern internals")

/-- Embedding of `z4.parseAsync(schema, data)`, modelled by its resolved outcome. -/
def z4parseAsync : Jv → Data → Except JsExn Data
  | .v4Schema run, d =>
    match run d with
    | .ok v => .ok v
    | .invalid e => .error (.zodError e)
    | .fault m => .error (.jsError m)
  | _, _ => .error (.jsError "value lacks the Modern internals")

/-- Embedding of `z4.safeParseAsync(schema, data)`, modelled by its resolved outcome. -/
def z4safeParseAsync : Jv → Data → Except JsExn SafeResult
  | .v4Schema run, d =>
    match run d with
    | .ok v => .ok (.success v)
    | .invalid e => .ok (.failure (.zodError e))
    | .fault m => .error (.jsError m)
  | _, _ => .error (.jsError "value lacks the Modern internals")

/-- Embedding of `schema.parse(data)` by the Legacy convention: only a Legacy
validator instance carries the method; on any other value the call
faults. -/
def z3methodParse : Jv → Data → Except JsExn Data
  | .v3Schema run, d =>
    match run d with
    | .ok v => .ok v
    | .invalid e => .error (.zodError e)
    | .fault m => .error (.jsError m)
  | _, _ => .error (.jsError "schema.parse is not a function")

/-- Embedding of `schema.safeParse(data)` by the Legacy convention. -/
def z3methodSafeParse : Jv → Data → Except JsExn SafeResult
  | .v3Schema run, d =>
    match run d with
    | .ok v => .ok (.success v)
    | .invalid e => .ok (.failure (.zodError e))
    | .fault m => .error (.jsError m)
  | _, _ => .error (.jsError "schema.safeParse is not a function")

/-- Embedding of `schema.parseAsync(data)` by the Legacy convention, modelled by its
resolved outcome. -/
def z3methodParseAsync : Jv → Data → Except JsExn Data
  | .v3Schema run, d =>
    match run d with
    | .ok v => .ok v
    | .invalid e => .error (.zodError e)
    | .fault m => .error (.jsError m)
  | _, _ => .error (.jsError "schema.parseAsync is not a function")

/-- Embedding of `parseCompat` from src/compat/parser.ts: Modern values go through the
engine-level `z4.parse`, everything else through the value's own
`.parse` method. -/
def parseCompat (schema : Jv) (data : Data) : Except JsExn Data :=
  if isZodV4SchemaJv schema then z4parse schema data
  else z3methodParse schema data

/-- Embedding of `safeParseCompat` from src/compat/parser.ts. -/
def safeParseCompat (schema : Jv) (data : Data) : Except JsExn SafeResult :=
  if isZodV4SchemaJv schema then z4safeParse schema data
  else z3methodSafeParse schema data

/-- Embedding of `parseAsyncCompat` from src/compat/parser.ts. -/
def parseAsyncCompat (schema : Jv) (data : Data) : Except JsExn Data :=
  if isZodV4SchemaJv schema then z4parseAsync schema data
  else z3methodParseAsync schema data

/-! ## Request model and parse orchestrators

A request-like object is abstracted by its query pairs (absent when the
URL cannot be parsed), the entries its body yields when read as form data
(or the message of the rejection), and whether its body has already been
consumed. Reading the body is the only state-changing operation; the
orchestrators that may perform it return the final state of their input
alongside the result. -/

structure RequestLike where
  url : Option (List (String × String))
  formRead : Except String (List (String × FEntry))
  bodyUsed : Bool

/-- The `request` argument of the query operations: a request-like object
or a pre-built URLSearchParams value. -/
inductive QueryInput where
  | request (r : RequestLike)
  | searchParams (pairs : List (String × String))

/-- The `request` argument of the form operations: a request-like object
or a pre-built FormData value. -/
inductive FormInput where
  | request (r : RequestLike)
  | fd (entries : List (String × FEntry))

/-- Embedding of `new URL(request.url).searchParams`: throws on an unparsable URL. -/
def getSearchParamsFromRequest (r : RequestLike) : Except JsExn (List (String × String)) :=
  match r.url with
  | some pairs => .ok pairs
  | none => .error (.jsError "Invalid URL")

/-- Embedding of `await request.formData()`: consumes the body; reading an already
consumed body rejects. -/
def reqFormData (r : RequestLike) :
    Except JsExn (List (String × FEntry)) × RequestLike :=
  if r.bodyUsed then (.error (.jsError "Body has already been consumed"), r)
  else
    match r.formRead with
    | .ok entries => (.ok entries, { r with bodyUsed := true })
    | .error msg => (.error (.jsError msg), { r with bodyUsed := true })

/-- Embedding of `request.clone()`: an independent copy sharing the body contents;
cloning an already consumed request throws. -/
def reqClone (r : RequestLike) : Except JsExn RequestLike :=
  if r.bodyUsed then .error (.jsError "cannot clone a used request")
  else .ok r

/-- Form extraction of src/parsers.ts:
`isFormData(request) ? request : await request.clone().formData()` — the
clone, not the original, is consumed, and the clone is then discarded.
The second component is the final state of the input. -/
def getFormDataCloning : FormInput → Except JsExn (List (String × FEntry)) × FormInput
  | .fd entries => (.ok entries, .fd entries)
  | .request r =>
    match reqClone r with
    | .error e => (.error e, .request r)
    | .ok c => ((reqFormData c).1, .request r)

/-- Form extraction of src/parsers.v4.ts (and src/parsers.v3.ts):
`request instanceof FormData ? request : await request.formData()` — the
original request's body is consumed. -/
def getFormDataConsuming : FormInput → Except JsExn (List (String × FEntry)) × FormInput
  | .fd entries => (.ok entries, .fd entries)
  | .request r =>
    let p := reqFormData r
    (p.1, .request p.2)

/-- A custom URLSearchParams normalizer: any function of the pairs, which
may itself throw. -/
abbrev QueryFn := List (String × String) → Except JsExn Data

/-- A custom FormData normalizer. -/
abbrev FormFn := List (String × FEntry) → Except JsExn Data

def qvalToData : QVal → Data
  | .s v => .str v
  | .arr vs => .list (vs.map Data.str)

def qrecordToData (r : List (String × QVal)) : Data :=
  .record (r.map (fun kv => (kv.1, qvalToData kv.2)))

def fvalToData : FVal → Data
  | .s v => .str v
  | .arr vs => .list (vs.map Data.str)

def frecordToData (r : List (String × FVal)) : Data :=
  .record (r.map (fun kv => (kv.1, fvalToData kv.2)))

def fentryToData : FEntry → Data
  | .str s => .str s
  | .file n => .file n

def f4valToData : F4Val → Data
  | .one v => fentryToData v
  | .many vs => .list (vs.map fentryToData)

def f4recordToData (r : List (String × F4Val)) : Data :=
  .record (r.map (fun kv => (kv.1, f4valToData kv.2)))

/-- Embedding of `parseSearchParams` from src/parsers.ts: the custom function when
supplied, `parseSearchParamsDefault` otherwise (the default never
throws). -/
def parseSearchParams (pairs : List (String × String)) (custom : Option QueryFn) :
    Except JsExn Data :=
  match custom with
  | some p => p pairs
  | none => .ok (qrecordToData (parseSearchParamsDefault pairs))

/-- Embedding of `parseFormData` (the wrapper) from src/parsers.ts. -/
def parseFormDataWrap (entries : List (String × FEntry)) (custom : Option FormFn) :
    Except JsExn Data :=
  match custom with
  | some p => p entries
  | none => .ok (frecordToData (parseFormDataDefault entries))

/-- Embedding of `isZodSchema(schema) ? schema : createObjectSchema(schema)` — the
validator resolution step inlined in every compat orchestrator. -/
def finalSchemaOf (schema : Jv) : Jv :=
  if isZodSchemaJv schema then schema else createObjectSchema schema

/-- Embedding of `parseParams` from src/parsers.ts: the whole body is inside
`try { ... } catch { throw createErrorResponse(options) }`. -/
def parseParams (params : Data) (schema : Jv) (options : Options QueryFn) :
    Except JsExn Data :=
  match parseCompat (finalSchemaOf schema) params with
  | .ok v => .ok v
  | .error _ => .error (.response (createErrorResponse options))

/-- Embedding of `parseParamsSafe` from src/parsers.ts: no try/catch at all — only the
engine's own safe entry point contains the validation failure. -/
def parseParamsSafe (params : Data) (schema : Jv) : Except JsExn SafeResult :=
  safeParseCompat (finalSchemaOf schema) params

/-- Embedding of `isURLSearchParams(request) ? request : getSearchParamsFromRequest(request)`
— the query source extraction inlined in both query orchestrators. -/
def querySource : QueryInput → Except JsExn (List (String × String))
  | .searchParams pairs => .ok pairs
  | .request r => getSearchParamsFromRequest r

/-- The try-block body shared by `parseQuery` (which wraps it) and, minus
the wrapping, duplicated in `parseQuerySafe`. -/
def parseQueryCore (input : QueryInput) (schema : Jv) (options : Options QueryFn) :
    Except JsExn Data :=
  match querySource input with
  | .error e => .error e
  | .ok pairs =>
    match parseSearchParams pairs options.parser with
    | .error e => .error e
    | .ok data => parseCompat (finalSchemaOf schema) data

/-- Embedding of `parseQuery` from src/parsers.ts. -/
def parseQuery (input : QueryInput) (schema : Jv) (options : Options QueryFn) :
    Except JsExn Data :=
  match parseQueryCore input schema options with
  | .ok v => .ok v
  | .error _ => .error (.response (createErrorResponse options))

/-- Embedding of `parseQuerySafe` from src/parsers.ts: no try/catch — extraction and
normalization faults propagate; only the engine's safe entry point is
non-throwing, and only for validation failures. -/
def parseQuerySafe (input : QueryInput) (schema : Jv) (options : Options QueryFn) :
    Except JsExn SafeResult :=
  match querySource input with
  | .error e => .error e
  | .ok pairs =>
    match parseSearchParams pairs options.parser with
    | .error e => .error e
    | .ok data => safeParseCompat (finalSchemaOf schema) data

/-- Embedding of `parseForm` from src/parsers.ts: the whole body, extraction included,
is inside the try/catch. The second component is the final state of the
input (the original request is cloned, never consumed). -/
def parseForm (input : FormInput) (schema : Jv) (options : Options FormFn) :
    Except JsExn Data × FormInput :=
  let ex := getFormDataCloning input
  (match ex.1 with
   | .error _ => .error (.response (createErrorResponse options))
   | .ok entries =>
     match parseFormDataWrap entries options.parser with
     | .error _ => .error (.response (createErrorResponse options))
     | .ok data =>
       match parseAsyncCompat (finalSchemaOf schema) data with
       | .ok v => .ok v
       | .error _ => .error (.response (createErrorResponse options)),
   ex.2)

/-- Embedding of `parseFormSafe` from src/parsers.ts: extraction, normalization and
schema resolution happen before the try; only the awaited
`parseAsyncCompat` call is guarded, its exception becoming
`{success:false, error}`. -/
def parseFormSafe (input : FormInput) (schema : Jv) (options : Options FormFn) :
    Except JsExn SafeResult × FormInput :=
  let ex := getFormDataCloning input
  (match ex.1 with
   | .error e => .error e
   | .ok entries =>
     match parseFormDataWrap entries options.parser with
     | .error e => .error e
     | .ok data =>
       match parseAsyncCompat (finalSchemaOf schema) data with
       | .ok v => .ok (.success v)
       | .error e => .ok (.failure e),
   ex.2)

namespace V4

/-- Embedding of `isZodV4Schema(schema) ? schema : z.object(schema)` — the validator
resolution step of the v4-specific parsers: shapes are wrapped with the
Modern classic object constructor. -/
def finalSchemaOf (schema : Jv) : Jv :=
  if isZodV4SchemaJv schema then schema else createV4ObjectSchema schema

/-- Embedding of `parseForm` from src/parsers.v4.ts: reads `request.formData()`
directly (no clone — the original body is consumed), normalizes with the
custom function or `V4.parseFormData`, wraps shapes with the Modern
object constructor, and awaits `finalSchema.parseAsync`; everything is
inside the try/catch. -/
def parseForm (input : FormInput) (schema : Jv) (options : Options FormFn) :
    Except JsExn Data × FormInput :=
  let ex := getFormDataConsuming input
  (match ex.1 with
   | .error _ => .error (.response (createErrorResponse options))
   | .ok entries =>
     match (match options.parser with
            | some p => p entries
            | none => .ok (f4recordToData (parseFormData entries))) with
     | .error _ => .error (.response (createErrorResponse options))
     | .ok data =>
       match z4parseAsync (finalSchemaOf schema) data with
       | .ok v => .ok v
       | .error _ => .error (.response (createErrorResponse options)),
   ex.2)

/-- Embedding of `parseFormSafe` from src/parsers.v4.ts: no try/catch; the original
request's body is consumed and `finalSchema.safeParseAsync` produces the
result. -/
def parseFormSafe (input : FormInput) (schema : Jv) (options : Options FormFn) :
    Except JsExn SafeResult × FormInput :=
  let ex := getFormDataConsuming input
  (match ex.1 with
   | .error e => .error e
   | .ok entries =>
     match (match options.parser with
            | some p => p entries
            | none => .ok (f4recordToData (parseFormData entries))) with
     | .error e => .error e
     | .ok data => z4safeParseAsync (finalSchemaOf schema) data,
   ex.2)

end V4

/-! ## Concrete sample values used by witnesses and counterexamples -/

/-- A Legacy validator instance accepting every input unchanged. -/
def idValidatorV3 : Jv := .v3Schema (fun d => .ok d)

/-- A Modern validator instance accepting every input unchanged. -/
def idValidatorV4 : Jv := .v4Schema (fun d => .ok d)

/-- Options with no overrides and no custom normalizer. -/
def noOptionsQ : Options QueryFn := ⟨none, none, none⟩

/-- Options with no overrides and no custom normalizer (form flavor). -/
def noOptionsF : Options FormFn := ⟨none, none, none⟩

/-- A fresh request-like value with an empty query, an empty form body,
and an unconsumed body stream. -/
def freshRequest : RequestLike := ⟨some [], .ok [], false⟩

/-- True exactly on an engine-level fault; the validator's run on an
input with this false succeeds or reports issues. -/
def VOutcome.isFault : VOutcome → Bool
  | .fault _ => true
  | _ => false

/-- A schema value is dispatchable on an input when it is a validator
instance of either generation whose run on that input does not fault. -/
def dispatchable : Jv → Data → Bool
  | .v3Schema run, d => !(run d).isFault
  | .v4Schema run, d => !(run d).isFault
  | _, _ => false

/-! ## Helper lemmas -/

theorem isZodV4SchemaJv_v3 (run : Data → VOutcome) :
    isZodV4SchemaJv (Jv.v3Schema run) = false := rfl

theorem isZodV4SchemaJv_v4 (run : Data → VOutcome) :
    isZodV4SchemaJv (Jv.v4Schema run) = true := rfl

theorem isZodSchemaJv_v3 (run : Data → VOutcome) :
    isZodSchemaJv (Jv.v3Schema run) = true := rfl

theorem isZodSchemaJv_v4 (run : Data → VOutcome) :
    isZodSchemaJv (Jv.v4Schema run) = true := rfl

theorem parseCompat_v3 (run : Data → VOutcome) (d : Data) :
    parseCompat (Jv.v3Schema run) d = z3methodParse (Jv.v3Schema run) d := rfl

theorem parseCompat_v4 (run : Data → VOutcome) (d : Data) :
    parseCompat (Jv.v4Schema run) d = z4parse (Jv.v4Schema run) d := rfl

theorem safeParseCompat_v3 (run : Data → VOutcome) (d : Data) :
    safeParseCompat (Jv.v3Schema run) d = z3methodSafeParse (Jv.v3Schema run) d := rfl

theorem safeParseCompat_v4 (run : Data → VOutcome) (d : Data) :
    safeParseCompat (Jv.v4Schema run) d = z4safeParse (Jv.v4Schema run) d := rfl

theorem z3methodParse_run (run : Data → VOutcome) (d : Data) :
    z3methodParse (Jv.v3Schema run) d =
      (match run d with
       | .ok v => .ok v
       | .invalid e => .error (.zodError e)
       | .fault m => .error (.jsError m)) := rfl

theorem z3methodSafeParse_run (run : Data → VOutcome) (d : Data) :
    z3methodSafeParse (Jv.v3Schema run) d =
      (match run d with
       | .ok v => .ok (.success v)
       | .invalid e => .ok (.failure (.zodError e))
       | .fault m => .error (.jsError m)) := rfl

theorem z4parse_run (run : Data → VOutcome) (d : Data) :
    z4parse (Jv.v4Schema run) d =
      (match run d with
       | .ok v => .ok v
       | .invalid e => .error (.zodError e)
       | .fault m => .error (.jsError m)) := rfl

theorem z4safeParse_run (run : Data → VOutcome) (d : Data) :
    z4safeParse (Jv.v4Schema run) d =
      (match run d with
       | .ok v => .ok (.success v)
       | .invalid e => .ok (.failure (.zodError e))
       | .fault m => .error (.jsError m)) := rfl

/-- If the throwing dispatcher succeeds, the safe dispatcher succeeds
with the same data. -/
theorem parseCompat_ok_safe (X : Jv) (d v : Data)
    (h : parseCompat X d = .ok v) : safeParseCompat X d = .ok (.success v) := by
  cases X with
  | v3Schema run =>
    rw [parseCompat_v3, z3methodParse_run] at h
    rw [safeParseCompat_v3, z3methodSafeParse_run]
    cases hr : run d <;> rw [hr] at h <;> simp_all
  | v4Schema run =>
    rw [parseCompat_v4, z4parse_run] at h
    rw [safeParseCompat_v4, z4safeParse_run]
    cases hr : run d <;> rw [hr] at h <;> simp_all
  | shape fields =>
    exfalso
    by_cases hz : isZodV4SchemaJv (Jv.shape fields) = true
    · rw [parseCompat, if_pos hz] at h
      simp [z4parse] at h
    · rw [parseCompat, if_neg hz] at h
      simp [z3methodParse] at h
  | vnull => simp [parseCompat, isZodV4SchemaJv, nonNullObjectJv, z3methodParse] at h
  | vundefined => simp [parseCompat, isZodV4SchemaJv, nonNullObjectJv, z3methodParse] at h
  | nonObject => simp [parseCompat, isZodV4SchemaJv, nonNullObjectJv, z3methodParse] at h

/-! ## Claim theorems -/

/-- C3: the default query normalizer of src/parsers.ts violates the
promotion rule — given the pairs a= and a=x (the key `a` occurs twice,
its first value the empty string), the truthiness test skips the
promotion branch and the second value overwrites the first, yielding the
bare scalar "x" instead of the two-element list ["", "x"]; the sibling
default normalizer of src/parsers.v4.ts, which tests key presence
instead, produces the list the claim (and the compat function's own doc
comment) requires. -/
theorem zx_query_normalizer_empty_dup :
    parseSearchParamsDefault [("a", ""), ("a", "x")] = [("a", QVal.s "x")] ∧
    V4.defaultSearchParamsParser [("a", ""), ("a", "x")] = [("a", QVal.arr ["", "x"])] :=
  ⟨rfl, rfl⟩

/-- C4 counterexample: the claim fails on both default form normalizers.
In src/parsers.ts a file entry arriving after a stored scalar does not
promote to a list — it overwrites the scalar with its filename; and in
src/parsers.v4.ts a file entry is preserved as a binary File value, with
no filename substitution at all. -/
theorem zx_form_normalizer_cex :
    parseFormDataDefault [("k", FEntry.str "a"), ("k", FEntry.file "f.txt")] =
      [("k", FVal.s "f.txt")] ∧
    FVal.s "f.txt" ≠ FVal.arr ["a", "f.txt"] ∧
    V4.parseFormData [("f", FEntry.file "a.png")] =
      [("f", F4Val.one (FEntry.file "a.png"))] :=
  ⟨rfl, by decide, rfl⟩

/-- C4 (amended): in the compat default form normalizer a file entry is
stored as its declared filename but as a scalar, replacing a previously
stored scalar rather than promoting to a list, and a file joining an
existing list is appended via its string conversion "[object File]", not
its filename; the v3/v4 `parseFormData` performs no filename
substitution — a key's single file entry is preserved as-is and repeated
entries become the list of the original values. -/
theorem zx_form_normalizer_file_behavior :
    (∀ (k a n : String),
       parseFormDataDefault [(k, FEntry.str a), (k, FEntry.file n)] = [(k, FVal.s n)]) ∧
    (∀ (k v1 v2 n : String), v1 ≠ "" →
       parseFormDataDefault [(k, FEntry.str v1), (k, FEntry.str v2), (k, FEntry.file n)] =
         [(k, FVal.arr [v1, v2, "[object File]"])]) ∧
    (∀ (k n : String),
       V4.parseFormData [(k, FEntry.file n)] = [(k, F4Val.one (FEntry.file n))]) ∧
    (∀ (k n1 n2 : String),
       V4.parseFormData [(k, FEntry.file n1), (k, FEntry.file n2)] =
         [(k, F4Val.many [FEntry.file n1, FEntry.file n2])]) := by
  refine ⟨?_, ?_, ?_, ?_⟩
  · intro k a n
    simp [parseFormDataDefault, formStep, getEntry, setEntry]
  · intro k v1 v2 n h
    simp [parseFormDataDefault, formStep, getEntry, setEntry, fentryToString, h]
  · intro k n
    simp [V4.parseFormData, V4.getAll, setEntry]
  · intro k n1 n2
    simp [V4.parseFormData, V4.getAll, setEntry]

/-- C4 witness: the amended statement instantiated at the concrete form
entries k=a, k=b, k=(file f.txt). -/
theorem zx_form_normalizer_file_behavior_witness :
    parseFormDataDefault
        [("k", FEntry.str "a"), ("k", FEntry.str "b"), ("k", FEntry.file "f.txt")] =
      [("k", FVal.arr ["a", "b", "[object File]"])] :=
  zx_form_normalizer_file_behavior.2.1 "k" "a" "b" "f.txt" (by decide)

/-- C6 counterexample: wrapping a shape with the v4-specific parsers'
object constructor (`createV4ObjectSchema` / `z.object` from the Modern
classic API) yields a validator carrying the Modern marker, so
shape-wrapping does produce a Modern-generation validator, contrary to
the claim. -/
theorem zx_shape_wrap_modern_cex :
    classifyGenerationJv (createV4ObjectSchema (Jv.shape [("a", idValidatorV4)])) =
      Generation.modern ∧
    Generation.modern ≠ Generation.legacy :=
  ⟨rfl, by decide⟩

/-- C6 (amended): the compat parse operations wrap shapes with the Legacy
engine's object constructor and the result classifies as a Legacy
validator instance, while the v4-specific parse operations wrap shapes
with the Modern classic object constructor and the result classifies as
Modern. -/
theorem zx_shape_wrap_generation (sh : Jv) :
    classifyGenerationJv (createObjectSchema sh) = Generation.legacy ∧
    isZodSchemaJv (createObjectSchema sh) = true ∧
    (∀ schema : Jv, isZodSchemaJv schema = false →
       finalSchemaOf schema = createObjectSchema schema) ∧
    classifyGenerationJv (createV4ObjectSchema sh) = Generation.modern ∧
    (∀ schema : Jv, isZodV4SchemaJv schema = false →
       V4.finalSchemaOf schema = createV4ObjectSchema schema) := by
  refine ⟨rfl, rfl, ?_, rfl, ?_⟩
  · intro schema h
    simp [finalSchemaOf, h]
  · intro schema h
    simp [V4.finalSchemaOf, h]

/-- C6 witness: a concrete unclassifiable shape is wrapped by the two
resolution steps into a Legacy and a Modern validator respectively. -/
theorem zx_shape_wrap_generation_witness :
    finalSchemaOf (Jv.shape [("a", idValidatorV3)]) =
      createObjectSchema (Jv.shape [("a", idValidatorV3)]) ∧
    classifyGenerationJv (createObjectSchema (Jv.shape [("a", idValidatorV3)])) =
      Generation.legacy :=
  ⟨(zx_shape_wrap_generation (Jv.shape [("a", idValidatorV3)])).2.2.1
      (Jv.shape [("a", idValidatorV3)]) rfl,
   (zx_shape_wrap_generation (Jv.shape [("a", idValidatorV3)])).1⟩

/-- C7: the generation classification realized by the guards of
src/types/guards.ts agrees exactly with the spec's wording — Modern iff a
non-null object carries the `_zod` marker, Legacy iff it lacks `_zod` but
carries `_def`, Neither otherwise; `isZodSchema` holds iff the
classification is not Neither; and the two generation guards never both
hold, so at most one generation applies to any value. -/
theorem zx_classifyGeneration_spec (v : JsValue) :
    classifyGeneration v = specClassifyGeneration v ∧
    isZodSchema v = decide (classifyGeneration v ≠ Generation.neither) ∧
    (isZodV4Schema v && isZodV3Schema v) = false := by
  cases v with
  | obj props =>
    by_cases hz : "_zod" ∈ props <;> by_cases hd : "_def" ∈ props <;>
      simp [classifyGeneration, specClassifyGeneration, isZodSchema, isZodV4Schema,
        isZodV3Schema, nonNullObject, hasProp, hz, hd]
  | vundefined => exact ⟨rfl, rfl, rfl⟩
  | vnull => exact ⟨rfl, rfl, rfl⟩
  | nonObject => exact ⟨rfl, rfl, rfl⟩

/-- C9 counterexample: with `message` supplied as the empty string and
`status` supplied as 0, the error constructor falls back to both
defaults instead of applying the supplied values, because `||` treats
falsy overrides as absent. -/
theorem zx_buildError_falsy_cex :
    (createErrorResponse (⟨some "", some 0, none⟩ : Options Unit)).statusText =
      "Bad Request" ∧
    "Bad Request" ≠ "" ∧
    (createErrorResponse (⟨some "", some 0, none⟩ : Options Unit)).status = 400 ∧
    (400 : Nat) ≠ 0 :=
  ⟨rfl, by decide, rfl, by decide⟩

/-- C9 (amended): `statusText` equals `options.message` when a non-empty
message is supplied and "Bad Request" otherwise (message absent or
empty); `status` equals `options.status` when a non-zero status is
supplied and 400 otherwise (status absent or zero). The construction is a
pure function of the options. -/
theorem zx_buildError_overrides :
    (∀ (P : Type) (o : Options P) (m : String),
       o.message = some m → m ≠ "" → (createErrorResponse o).statusText = m) ∧
    (∀ (P : Type) (o : Options P),
       o.message = none ∨ o.message = some "" →
         (createErrorResponse o).statusText = DEFAULT_ERROR_MESSAGE) ∧
    (∀ (P : Type) (o : Options P) (n : Nat),
       o.status = some n → n ≠ 0 → (createErrorResponse o).status = n) ∧
    (∀ (P : Type) (o : Options P),
       o.status = none ∨ o.status = some 0 →
         (createErrorResponse o).status = DEFAULT_ERROR_STATUS) := by
  refine ⟨?_, ?_, ?_, ?_⟩
  · intro P o m hm hne
    simp [createErrorResponse, jsOrString, hm, hne]
  · intro P o hm
    rcases hm with hm | hm <;> simp [createErrorResponse, jsOrString, hm]
  · intro P o n hn hne
    simp [createErrorResponse, jsOrNat, hn, hne]
  · intro P o hn
    rcases hn with hn | hn <;> simp [createErrorResponse, jsOrNat, hn]

/-- C9 witness: a non-empty message and non-zero status are applied
verbatim. -/
theorem zx_buildError_overrides_witness :
    (createErrorResponse (⟨some "Not Found", some 404, none⟩ : Options Unit)).statusText =
      "Not Found" ∧
    (createErrorResponse (⟨some "Not Found", some 404, none⟩ : Options Unit)).status = 404 :=
  ⟨zx_buildError_overrides.1 Unit ⟨some "Not Found", some 404, none⟩ "Not Found" rfl
      (by decide),
   zx_buildError_overrides.2.2.1 Unit ⟨some "Not Found", some 404, none⟩ 404 rfl
      (by decide)⟩

/-- C10: the error constructor treats falsy overrides as absent — an
empty-string message yields the default text "Bad Request", and a zero
status yields the default code 400. -/
theorem zx_buildError_falsy_defaults :
    (createErrorResponse (⟨some "", none, none⟩ : Options Unit)).statusText =
      "Bad Request" ∧
    (createErrorResponse (⟨none, some 0, none⟩ : Options Unit)).status = 400 :=
  ⟨rfl, rfl⟩

/-- C2: whenever a throwing parse operation does not return a parsed
value, the one thing it throws is the StandardError built by the error
constructor from the very options of the call — a value carrying only a
status and a status text, never the engine's Issue detail — and no other
exception escapes, whatever the failure (validation failure,
classification fault, extraction fault, custom-normalizer throw). -/
theorem zx_throwing_single_standard_error :
    (∀ (p : Data) (s : Jv) (o : Options QueryFn),
       (∃ v, parseParams p s o = .ok v) ∨
         parseParams p s o = .error (.response (createErrorResponse o))) ∧
    (∀ (input : QueryInput) (s : Jv) (o : Options QueryFn),
       (∃ v, parseQuery input s o = .ok v) ∨
         parseQuery input s o = .error (.response (createErrorResponse o))) ∧
    (∀ (input : FormInput) (s : Jv) (o : Options FormFn),
       (∃ v, (parseForm input s o).1 = .ok v) ∨
         (parseForm input s o).1 = .error (.response (createErrorResponse o))) := by
  refine ⟨?_, ?_, ?_⟩
  · intro p s o
    cases h : parseCompat (finalSchemaOf s) p with
    | ok v => exact Or.inl ⟨v, by simp only [parseParams, h]⟩
    | error e => exact Or.inr (by simp only [parseParams, h])
  · intro input s o
    cases h : parseQueryCore input s o with
    | ok v => exact Or.inl ⟨v, by simp only [parseQuery, h]⟩
    | error e => exact Or.inr (by simp only [parseQuery, h])
  · intro input s o
    simp only [parseForm]
    cases h1 : (getFormDataCloning input).1 with
    | error e => exact Or.inr (by simp only [h1])
    | ok entries =>
      cases h2 : parseFormDataWrap entries o.parser with
      | error e => exact Or.inr (by simp only [h1, h2])
      | ok data =>
        cases h3 : parseAsyncCompat (finalSchemaOf s) data with
        | ok v => exact Or.inl ⟨v, by simp only [h1, h2, h3]⟩
        | error e => exact Or.inr (by simp only [h1, h2, h3])

/-- C8: on accepted input the throwing operation returns exactly the
`.data` of the safe operation's successful result — for params, query
(same source extraction and normalization) and form (same cloning
extraction, normalization and awaited dispatch). -/
theorem zx_throw_safe_agreement :
    (∀ (p : Data) (s : Jv) (o : Options QueryFn) (v : Data),
       parseCompat (finalSchemaOf s) p = .ok v →
         parseParams p s o = .ok v ∧ parseParamsSafe p s = .ok (.success v)) ∧
    (∀ (input : QueryInput) (s : Jv) (o : Options QueryFn)
       (pairs : List (String × String)) (d v : Data),
       querySource input = .ok pairs →
       parseSearchParams pairs o.parser = .ok d →
       parseCompat (finalSchemaOf s) d = .ok v →
         parseQuery input s o = .ok v ∧ parseQuerySafe input s o = .ok (.success v)) ∧
    (∀ (input : FormInput) (s : Jv) (o : Options FormFn)
       (entries : List (String × FEntry)) (d v : Data),
       (getFormDataCloning input).1 = .ok entries →
       parseFormDataWrap entries o.parser = .ok d →
       parseAsyncCompat (finalSchemaOf s) d = .ok v →
         (parseForm input s o).1 = .ok v ∧ (parseFormSafe input s o).1 = .ok (.success v)) := by
  refine ⟨?_, ?_, ?_⟩
  · intro p s o v h
    exact ⟨by simp only [parseParams, h],
           by simp only [parseParamsSafe, parseCompat_ok_safe _ _ _ h]⟩
  · intro input s o pairs d v h1 h2 h3
    constructor
    · simp only [parseQuery, parseQueryCore, h1, h2, h3]
    · simp only [parseQuerySafe, h1, h2, parseCompat_ok_safe _ _ _ h3]
  · intro input s o entries d v h1 h2 h3
    exact ⟨by simp only [parseForm, h1, h2, h3],
           by simp only [parseFormSafe, h1, h2, h3]⟩

/-- C8 witness: agreement at a concrete accepted input — route params
{} against the all-accepting Legacy validator. -/
theorem zx_throw_safe_agreement_witness :
    parseParams (Data.record []) idValidatorV3 noOptionsQ = .ok (Data.record []) ∧
    parseParamsSafe (Data.record []) idValidatorV3 = .ok (.success (Data.record [])) :=
  zx_throw_safe_agreement.1 (Data.record []) idValidatorV3 noOptionsQ (Data.record []) rfl

/-- C1 counterexample: `parseParamsSafe` has no try/catch, so a schema
argument that is not a pre-built validator and whose wrapped object
validator faults when run — here a shape whose entry "a" is not a
validator, so the Legacy engine's field loop hits a value without a
callable parse routine — makes the safe call throw the engine's
TypeError instead of returning {success:false, error}. -/
theorem zx_safe_wrapping_fault_cex :
    parseParamsSafe (Data.record []) (Jv.shape [("a", Jv.nonObject)]) =
      .error (.jsError "keyValidator._parse is not a function") := rfl

/-- C1 (amended): the safe operations never throw only under conditions.
`parseFormSafe` guards the awaited engine call, so on a pre-built form
source with the default normalizer it always returns a result — engine
faults included, which become {success:false, error}; `parseParamsSafe`
and `parseQuerySafe` have no guard at all and return a result exactly
when the resolved validator is a validator instance whose run does not
fault (and, for query, the source extraction and normalization
succeed); a classification or wrapping fault surfacing inside the
engine's safe entry point escapes them as an exception. -/
theorem zx_safe_variants_fault_behavior :
    (∀ (entries : List (String × FEntry)) (s : Jv) (msg : Option String)
       (st : Option Nat),
       ∃ r, (parseFormSafe (.fd entries) s ⟨msg, st, none⟩).1 = .ok r) ∧
    (∀ (p : Data) (s : Jv),
       dispatchable (finalSchemaOf s) p = true →
         ∃ r, parseParamsSafe p s = .ok r) ∧
    (∀ (input : QueryInput) (s : Jv) (o : Options QueryFn)
       (pairs : List (String × String)) (d : Data),
       querySource input = .ok pairs →
       parseSearchParams pairs o.parser = .ok d →
       dispatchable (finalSchemaOf s) d = true →
         ∃ r, parseQuerySafe input s o = .ok r) := by
  have hdisp : ∀ (X : Jv) (d : Data), dispatchable X d = true →
      ∃ r, safeParseCompat X d = .ok r := by
    intro X d h
    cases X with
    | v3Schema run =>
      rw [safeParseCompat_v3, z3methodSafeParse_run]
      cases hr : run d with
      | ok w => exact ⟨.success w, rfl⟩
      | invalid e => exact ⟨.failure (.zodError e), rfl⟩
      | fault m =>
        rw [dispatchable] at h
        rw [hr] at h
        simp [VOutcome.isFault] at h
    | v4Schema run =>
      rw [safeParseCompat_v4, z4safeParse_run]
      cases hr : run d with
      | ok w => exact ⟨.success w, rfl⟩
      | invalid e => exact ⟨.failure (.zodError e), rfl⟩
      | fault m =>
        rw [dispatchable] at h
        rw [hr] at h
        simp [VOutcome.isFault] at h
    | shape fields => simp [dispatchable] at h
    | vnull => simp [dispatchable] at h
    | vundefined => simp [dispatchable] at h
    | nonObject => simp [dispatchable] at h
  refine ⟨?_, ?_, ?_⟩
  · intro entries s msg st
    cases h : parseAsyncCompat (finalSchemaOf s)
        (frecordToData (parseFormDataDefault entries)) with
    | ok v =>
      exact ⟨.success v,
        by simp only [parseFormSafe, getFormDataCloning, parseFormDataWrap, h]⟩
    | error e =>
      exact ⟨.failure e,
        by simp only [parseFormSafe, getFormDataCloning, parseFormDataWrap, h]⟩
  · intro p s h
    simpa only [parseParamsSafe] using hdisp (finalSchemaOf s) p h
  · intro input s o pairs d h1 h2 h3
    obtain ⟨r, hr⟩ := hdisp (finalSchemaOf s) d h3
    exact ⟨r, by simp only [parseQuerySafe, h1, h2, hr]⟩

/-- C1 witness: the amended statement at concrete inputs — an empty
pre-built form with a faulting Legacy validator still yields a returned
result from `parseFormSafe`, and `parseParamsSafe` returns a result for
the all-accepting Legacy validator. -/
theorem zx_safe_variants_fault_behavior_witness :
    (∃ r, (parseFormSafe (.fd []) (Jv.v3Schema (fun _ => .fault "boom"))
        ⟨none, none, none⟩).1 = .ok r) ∧
    (∃ r, parseParamsSafe (Data.record []) idValidatorV3 = .ok r) :=
  ⟨zx_safe_variants_fault_behavior.1 [] (Jv.v3Schema (fun _ => .fault "boom")) none none,
   zx_safe_variants_fault_behavior.2.1 (Data.record []) idValidatorV3 rfl⟩

/-- C5 counterexample: the v4-specific `parseForm` reads the request's
form data without cloning — called on a fresh request-like object (body
not yet consumed), it leaves the original with its body consumed,
contrary to the claim that the request is cloned and the original left
unconsumed. -/
theorem zx_v4_parseForm_consumes_body_cex :
    freshRequest.bodyUsed = false ∧
    (V4.parseForm (.request freshRequest) idValidatorV4 noOptionsF).2 =
      FormInput.request ⟨some [], Except.ok [], true⟩ :=
  ⟨rfl, rfl⟩

/-- C5 (amended): the compat `parseForm`/`parseFormSafe` of src/parsers.ts
clone the request before reading form data, returning with the original
request unchanged; the v4-specific variants read `request.formData()`
directly and consume the original body; and the query operations read
only the URL — their behavior is unchanged under any body state, and the
request's body state is untouched. -/
theorem zx_form_body_consumption :
    (∀ (r : RequestLike) (s : Jv) (o : Options FormFn),
       (parseForm (.request r) s o).2 = .request r ∧
       (parseFormSafe (.request r) s o).2 = .request r) ∧
    (∀ (r : RequestLike) (s : Jv) (o : Options FormFn),
       r.bodyUsed = false →
         (V4.parseForm (.request r) s o).2 = .request { r with bodyUsed := true } ∧
         (V4.parseFormSafe (.request r) s o).2 = .request { r with bodyUsed := true }) ∧
    (∀ (u : Option (List (String × String)))
       (f f' : Except String (List (String × FEntry))) (b b' : Bool)
       (s : Jv) (o : Options QueryFn),
       parseQuery (.request ⟨u, f, b⟩) s o = parseQuery (.request ⟨u, f', b'⟩) s o ∧
       parseQuerySafe (.request ⟨u, f, b⟩) s o = parseQuerySafe (.request ⟨u, f', b'⟩) s o) := by
  refine ⟨?_, ?_, ?_⟩
  · intro r s o
    constructor <;>
      · simp only [parseForm, parseFormSafe, getFormDataCloning]
        cases hb : reqClone r <;> simp
  · intro r s o h
    constructor <;>
      · simp only [V4.parseForm, V4.parseFormSafe, getFormDataConsuming, reqFormData, h]
        cases hf : r.formRead <;> simp
  · intro u f f' b b' s o
    constructor <;>
      · simp only [parseQuery, parseQueryCore, parseQuerySafe, querySource,
          getSearchParamsFromRequest]

/-- C5 witness: a fresh request is left untouched by the compat
`parseForm` and consumed by the v4 `parseForm`. -/
theorem zx_form_body_consumption_witness :
    (parseForm (.request freshRequest) idValidatorV3 noOptionsF).2 =
      .request freshRequest ∧
    (V4.parseForm (.request freshRequest) idValidatorV4 noOptionsF).2 =
      .request { freshRequest with bodyUsed := true } :=
  ⟨(zx_form_body_consumption.1 freshRequest idValidatorV3 noOptionsF).1,
   (zx_form_body_consumption.2.1 freshRequest idValidatorV4 noOptionsF rfl).1⟩
